import Mathlib

/-!
Verification development for the scene-mutation and fuzzy-resolution subsystem
of the `hue-backup` command-line client.

The Python sources are shallowly embedded as executable Lean definitions:

* `models/zone_utils.py` — `find_zone_by_name`, `filter_scene_actions_for_zone`,
  `generate_zone_scene_name`;
* `commands/scene_management.py` — `duplicate_scene_command` and
  `modify_scenes_command`, together with their inner helpers
  (`find_light_rid`, `find_action_index`, the per-edit loops and the
  bulk create/delete loop).

Modelling conventions:

* JSON-ish dictionaries become structures whose optional keys are `Option`
  fields.  An action's nested state object carries exactly the four keys the
  data model of this program uses (`on`, `dimming`, `color`,
  `color_temperature`).
* Python `float` brightness/speed values are modelled as exact decimal numbers
  (`Dec10`: an integer mantissa with a power-of-ten exponent), so that all
  comparisons performed by the code (range checks against 0 and 100, equality)
  are decidable by kernel reduction.  Every numeric literal the code
  manipulates is a short decimal literal, for which this model is exact.
* The external resource client (`HueController`) is an excluded collaborator:
  entity snapshots are passed in as arguments and outgoing `create_scene` /
  `delete_scene` calls are collected in a `Call` list; the success of a
  backend write is an oracle parameter.
* Interactive confirmation prompts, progress bars and coloured output are
  presentation-only and are not modelled; the confirmed (`--yes`) path is
  embedded.
-/

/-- Lowercase a character, ASCII range only (models Python `str.lower` on the
ASCII strings this program manipulates). -/
def lowerChar (c : Char) : Char :=
  if 'A' ≤ c ∧ c ≤ 'Z' then Char.ofNat (c.toNat + 32) else c

/-- Lowercase a string (models Python `str.lower`). -/
def lowerStr (s : String) : String := String.mk (s.data.map lowerChar)

/-- Does `n` occur as a contiguous substring of `h`?  (Python `n in h`.) -/
def listSubstr (n : List Char) : List Char → Bool
  | [] => n.isEmpty
  | c :: t => n.isPrefixOf (c :: t) || listSubstr n t

/-- Python `needle in hay` on strings. -/
def substrOf (needle hay : String) : Bool := listSubstr needle.data hay.data

/-- An exact decimal number `num / 10 ^ exp`, the model of the Python floats
this program parses, stores and compares. -/
structure Dec10 where
  num : Int
  exp : Nat
deriving DecidableEq

/-- The decimal 100.0, the default brightness the code writes. -/
def dec100 : Dec10 := ⟨1000, 1⟩

/-- Range check `0 <= v <= 100` on a decimal value. -/
def Dec10.inRange (d : Dec10) : Bool := 0 ≤ d.num ∧ d.num ≤ 100 * (10 : Int) ^ d.exp

/-- The nested `action` state object of a scene action: optional `on.on`
(field `onOn`, since `on` is a Lean keyword), `dimming.brightness`,
`color.xy`, `color_temperature.mirek`. -/
structure ActionState where
  onOn : Option Bool
  dimming : Option Dec10
  color : Option (Dec10 × Dec10)
  color_temperature : Option Nat
deriving DecidableEq

/-- The `target` object of a scene action (`target.rid`, `target.rtype`),
both keys optional as the code reads them with `.get`. -/
structure ActionTarget where
  rid : Option String
  rtype : Option String
deriving DecidableEq

/-- One scene action: a target light and its desired state. -/
structure HueAction where
  target : ActionTarget
  action : ActionState
deriving DecidableEq

/-- The state `{on: {on: false}}` with no other key, written by the code when
it turns a light off. -/
def offState : ActionState :=
  { onOn := some false, dimming := none, color := none, color_temperature := none }

/-- The minimal off action `{target: {rid, rtype: "light"}, action: {on: {on: false}}}`
appended by the code for a light that needs an explicit off entry. -/
def mkOffAction (rid : String) : HueAction :=
  { target := { rid := some rid, rtype := some "light" }, action := offState }

/-- A scene palette; only the presence of the `effects` key matters to the
core (it is stripped before re-creating a scene), the rest is opaque. -/
structure Palette where
  effects : Option Nat
  effects_v2 : Option Nat
deriving DecidableEq

/-- A scene snapshot as fetched from the bridge. -/
structure Scene where
  id : String
  name : String
  group_rid : Option String
  group_rtype : Option String
  actions : List HueAction
  auto_dynamic : Bool
  speed : Dec10
  palette : Option Palette
deriving DecidableEq

/-- A light snapshot (id and metadata name). -/
structure Light where
  id : String
  name : String
deriving DecidableEq

/-- A room or zone (id and metadata name). -/
structure HueGroup where
  id : String
  name : String
deriving DecidableEq

/-- A zone snapshot as consumed by `find_zone_by_name` (id and metadata name). -/
structure Zone where
  id : String
  name : String
deriving DecidableEq

/- ------------------------------------------------------------------
`models/utils.py` is not part of the provided sources; only its callers are.
The fuzzy scorer below is therefore modelled from the spec.
------------------------------------------------------------------ -/

/-- Levenshtein edit distance with structural fuel so that it reduces in the
kernel; `fuel = xs.length + ys.length` always suffices, the fallback branch is
unreachable at the call sites below. -/
def levAux : Nat → List Char → List Char → Nat
  | _, [], ys => ys.length
  | _, xs, [] => xs.length
  | 0, xs, ys => xs.length + ys.length
  | fuel + 1, x :: xs, y :: ys =>
    if x = y then levAux fuel xs ys
    else 1 + min (levAux fuel xs (y :: ys)) (min (levAux fuel (x :: xs) ys) (levAux fuel xs ys))

/-- Levenshtein edit distance between two strings. -/
def lev (a b : String) : Nat := levAux (a.data.length + b.data.length) a.data b.data

/-- Is the similarity of `c` to `q` at least `tn / td`?  Similarity is
`1 - lev q c / max |q| |c|` (an edit-distance ratio), compared by
cross-multiplication so the test reduces in the kernel. -/
def simAtLeast (tn td : Nat) (q c : String) : Bool :=
  let m := max q.data.length c.data.length
  if m = 0 then true else td * (m - lev q c) ≥ tn * m ∧ lev q c ≤ m

/-- Is `c1` strictly more similar to `q` than `c2`?  (`lev q c1 / m1 < lev q c2 / m2`
by cross-multiplication; a zero-length side counts as similarity 1.) -/
def simMore (q c1 c2 : String) : Bool :=
  let m1 := max q.data.length c1.data.length
  let m2 := max q.data.length c2.data.length
  if m1 = 0 then ¬ (m2 = 0 ∧ lev q c2 = 0) ∧ true
  else if m2 = 0 then false
  else lev q c1 * m2 < lev q c2 * m1

/-- Insert `x` into a similarity-sorted list, keeping the best matches first. -/
def rankInsert (q x : String) : List String → List String
  | [] => [x]
  | y :: ys => if simMore q x y then x :: y :: ys else y :: rankInsert q x ys

/-- Modelled from the spec: `find_similar_strings` lives in `models/utils.py`,
which is not among the provided sources.  The spec describes it as returning a
"similarity-ranked suggestion list (edit-distance-like scoring; same mechanism
used for CLI typo suggestions)" for candidates scoring at least a threshold.
The threshold is given as the fraction `tn / td` (the call sites use 0.6 and
0.3); candidates scoring at least the threshold are kept and ranked best
first. -/
def find_similar_strings (q : String) (candidates : List String) (tn td : Nat) : List String :=
  (candidates.filter (fun c => simAtLeast tn td q c)).foldr (rankInsert q) []

/- ------------------------------------------------------------------
`models/zone_utils.py`
------------------------------------------------------------------ -/

/-- `find_zone_by_name` (`models/zone_utils.py`): exact case-insensitive match
first; else auto-pick the best fuzzy match at threshold 0.6; else no zone,
with suggestions at threshold 0.3. -/
def find_zone_by_name (zones : List Zone) (name : String) : Option Zone × List String :=
  let zone_names := zones.map Zone.name
  match zones.find? (fun z => lowerStr z.name = lowerStr name) with
  | some z => (some z, [])
  | none =>
    match find_similar_strings name zone_names 3 5 with
    | best :: _ =>
      match zones.find? (fun z => z.name = best) with
      | some z => (some z, [])
      | none => (none, find_similar_strings name zone_names 3 10)
    | [] => (none, find_similar_strings name zone_names 3 10)

/-- The `action_lookup` dictionary of `filter_scene_actions_for_zone`: fold the
source actions, keeping for each in-zone target rid the most recently seen
action (a later duplicate key overwrites an earlier one, as in a Python dict). -/
def zoneActionLookup (actions : List HueAction) (zone_set : List String) :
    String → Option HueAction :=
  actions.foldl
    (fun lk a =>
      match a.target.rid with
      | some r => if r ∈ zone_set then fun q => if q = r then some a else lk q else lk
      | none => lk)
    (fun _ => none)

/-- `filter_scene_actions_for_zone` (`models/zone_utils.py`): one action per
zone light, in zone order — excluded lights off, lights with a source action
verbatim, the rest off. -/
def filter_scene_actions_for_zone (scene : Scene) (zone_lights : List String)
    (exclude_lights : List String) : List HueAction :=
  let lookup := zoneActionLookup scene.actions zone_lights
  zone_lights.map (fun light_rid =>
    if light_rid ∈ exclude_lights then mkOffAction light_rid
    else
      match lookup light_rid with
      | some a => a
      | none => mkOffAction light_rid)

/-- Hue API limit: maximum characters for scene names. -/
def MAX_SCENE_NAME_LENGTH : Nat := 32

/-- Python `s.replace(pat, repl)` for nonempty `pat`, with structural fuel so
that it reduces in the kernel: replace every non-overlapping occurrence of
`pat` left to right.  Each step consumes at least one character, so
`fuel = s.length` always suffices. -/
def replaceAllAux (pat repl : List Char) : Nat → List Char → List Char
  | _, [] => []
  | 0, s => s
  | fuel + 1, c :: rest =>
    if pat.isPrefixOf (c :: rest) ∧ 0 < pat.length then
      repl ++ replaceAllAux pat repl fuel (rest.drop (pat.length - 1))
    else
      c :: replaceAllAux pat repl fuel rest

/-- Python `s.replace(pat, repl)` for nonempty `pat`. -/
def replaceAll (pat repl s : List Char) : List Char := replaceAllAux pat repl s.length s

/-- `generate_zone_scene_name` (`models/zone_utils.py`), on character lists:
drop `"Combined "` / `"combined "` from the zone name, compose
`"{original} ({zone_short})"`, append `" -X"` when there are exclusions,
truncate to the 32-character Hue limit.  The unused `light_lookup` parameter
of the source is kept. -/
def generate_zone_scene_name (original_name zone_name : List Char)
    (excluded_lights : List String) (_light_lookup : List (String × String)) : List Char :=
  let zone_short :=
    replaceAll "combined ".data [] (replaceAll "Combined ".data [] zone_name)
  let base_name := original_name ++ " (".data ++ zone_short ++ ")".data
  let base_name := if excluded_lights.isEmpty then base_name else base_name ++ " -X".data
  if base_name.length > MAX_SCENE_NAME_LENGTH then base_name.take MAX_SCENE_NAME_LENGTH
  else base_name

/- ------------------------------------------------------------------
`commands/scene_management.py` — shared pieces.

The `HueController` resource client is an external collaborator: the entity
snapshots it would fetch are passed as arguments, and the `create_scene` /
`delete_scene` calls the commands issue are collected as `Call` values.
------------------------------------------------------------------ -/

/-- The error exits of the two commands (each is an early `return` after an
error message in the source). -/
inductive CmdErr where
  | zoneNotFound
  | zoneAmbiguous
  | sceneAmbiguous
  | sceneNotFound
  | lightNotFound (q : String)
  | lightAmbiguous (q : String)
  | badFormat (spec : String)
  | badNumber (spec : String)
  | badRange (spec : String)
  | lightNotInScene (q : String)
  | noScenes
  | noMods
deriving DecidableEq

/-- An outgoing write call to the resource client. -/
inductive Call where
  | create (name : String) (group_rid : Option String) (actions : List HueAction)
      (auto_dynamic : Bool) (speed : Dec10) (group_rtype : String) (palette : Option Palette)
  | delete (scene_id : String)
deriving DecidableEq

deriving instance DecidableEq for Except

/-- Outcome of the source-scene resolution in `duplicate_scene_command`
(lines 85–112): a unique scene, an ambiguity list, or nothing. -/
inductive ResolveOutcome where
  | unique (s : Scene)
  | ambiguous (ms : List Scene)
  | notFound
deriving DecidableEq

/-- Is this outcome the ambiguous one? -/
def ResolveOutcome.isAmbiguous : ResolveOutcome → Bool
  | .ambiguous _ => true
  | _ => false

/-- The scene-name resolution of `duplicate_scene_command` (lines 85–112):
exact case-insensitive match (one → unique, several → ambiguous), else
case-insensitive substring match with the same one/several handling, else
not found. -/
def resolveScene (candidates : List Scene) (q : String) : ResolveOutcome :=
  let ql := lowerStr q
  match candidates.filter (fun s => lowerStr s.name = ql) with
  | [s] => .unique s
  | [] =>
    match candidates.filter (fun s => substrOf ql (lowerStr s.name)) with
    | [s] => .unique s
    | [] => .notFound
    | ms => .ambiguous ms
  | ms => .ambiguous ms

/-- Python dict insertion: overwrite the value in place if the key exists,
else append the pair. -/
def dictInsert (k v : String) (d : List (String × String)) : List (String × String) :=
  if d.any (fun p => p.1 = k) then d.map (fun p => if p.1 = k then (k, v) else p)
  else d ++ [(k, v)]

/-- The `light_reverse_lookup` / `light_lookup` dict of both commands:
`{light name lowercased: light id}` in light order, later duplicate names
overwriting earlier ones. -/
def light_reverse_lookup (lights : List Light) : List (String × String) :=
  lights.foldl (fun d l => dictInsert (lowerStr l.name) l.id d) []

/-- The `find_light_rid` helper of both commands: exact lowercase dict hit,
else a unique partial (substring) match among the dict items, else an
ambiguity or not-found error. -/
def find_light_rid (lookup : List (String × String)) (light_name : String) :
    Except CmdErr String :=
  let ql := lowerStr light_name
  match lookup.find? (fun p => p.1 = ql) with
  | some p => .ok p.2
  | none =>
    match lookup.filter (fun p => substrOf ql p.1) with
    | [m] => .ok m.2
    | [] => .error (.lightNotFound light_name)
    | _ => .error (.lightAmbiguous light_name)

/-- The `find_action_index` helper of both commands: index of the first action
targeting the given light rid. -/
def find_action_index (acts : List HueAction) (light_rid : String) : Option Nat :=
  acts.findIdx? (fun a => a.target.rid = some light_rid)

/-- Turn a light off inside an action list (`duplicate_scene_command`
lines 159–180, and the `turn_off` arm of `modify_scenes_command`): overwrite
the existing action with `on.on = false` and the `dimming`/`color`/
`color_temperature` keys removed, or append a minimal off action. -/
def apply_turn_off (rid : String) (acts : List HueAction) : List HueAction :=
  match find_action_index acts rid with
  | some idx =>
    match acts.get? idx with
    | some a => acts.set idx { a with action := offState }
    | none => acts
  | none => acts ++ [mkOffAction rid]

/-- Turn a light on inside an action list (`duplicate_scene_command`
lines 182–202, and the `turn_on` arm of `modify_scenes_command`): set
`on.on = true` leaving other fields untouched, or append an on action with
default brightness 100.0. -/
def apply_turn_on (rid : String) (acts : List HueAction) : List HueAction :=
  match find_action_index acts rid with
  | some idx =>
    match acts.get? idx with
    | some a => acts.set idx { a with action := { a.action with onOn := some true } }
    | none => acts
  | none =>
    acts ++ [{ target := { rid := some rid, rtype := some "light" },
               action := { onOn := some true, dimming := some dec100,
                           color := none, color_temperature := none } }]

/-- Set brightness on an existing action (shared by both commands): default
`on.on` to true when absent, then overwrite `dimming.brightness`. -/
def setBrightnessState (v : Dec10) (a : HueAction) : HueAction :=
  { a with action :=
      { a.action with
        onOn := if a.action.onOn = none then some true else a.action.onOn,
        dimming := some v } }

/-- Split at the first `'='` (Python `spec.split('=', 1)` guarded by
`'=' in spec`). -/
def splitOnEq : List Char → Option (List Char × List Char)
  | [] => none
  | c :: rest =>
    if c = '=' then some ([], rest)
    else
      match splitOnEq rest with
      | some (l, r) => some (c :: l, r)
      | none => none

/-- Python `str.strip()` whitespace set, restricted to the characters that can
occur in these CLI arguments. -/
def isSpaceChar (c : Char) : Bool := c = ' ' ∨ c = '\t' ∨ c = '\n' ∨ c = '\r'

/-- Python `str.strip()`. -/
def stripChars (l : List Char) : List Char :=
  ((l.dropWhile isSpaceChar).reverse.dropWhile isSpaceChar).reverse

/-- Python `str.rstrip('%')`. -/
def dropTrailingPct (l : List Char) : List Char :=
  (l.reverse.dropWhile (fun c => c = '%')).reverse

/-- Digits to a natural number. -/
def digitsToNat (l : List Char) : Nat :=
  l.foldl (fun n c => n * 10 + (c.toNat - 48)) 0

/-- Python `float(s)` on the plain decimal literals these brightness specs
contain (optional sign, digits, optional fractional part; scientific
notation and the special values are library behaviour outside this model and
are rejected here, as the code rejects every unparseable token). -/
def parseDecimal (l : List Char) : Option Dec10 :=
  let (neg, l') :=
    match l with
    | '-' :: r => (true, r)
    | '+' :: r => (false, r)
    | _ => (false, l)
  let intPart := l'.takeWhile Char.isDigit
  let rest := l'.dropWhile Char.isDigit
  match rest with
  | [] =>
    if intPart.isEmpty then none
    else some ⟨(if neg then -1 else 1) * (digitsToNat intPart : Int), 0⟩
  | '.' :: frac =>
    if frac.all Char.isDigit ∧ ¬ (intPart.isEmpty ∧ frac.isEmpty) then
      some ⟨(if neg then -1 else 1) * (digitsToNat (intPart ++ frac) : Int), frac.length⟩
    else none
  | _ => none

/-- The brightness-spec validation both commands perform: require `'='`,
strip the light name and the value, drop trailing `'%'`, parse the float and
range-check it against 0–100; return the light name and the value. -/
def parseBrightnessSpec (spec : String) : Except CmdErr (String × Dec10) :=
  match splitOnEq spec.data with
  | none => .error (.badFormat spec)
  | some (lname, bstr) =>
    let lname := stripChars lname
    let bstr := dropTrailingPct (stripChars bstr)
    match parseDecimal bstr with
    | some v =>
      if v.inRange then .ok (String.mk lname, v)
      else .error (.badRange spec)
    | none => .error (.badNumber spec)

/-- Strip the `effects` key from a palette before re-creating a scene (it is
mutually exclusive with `effects_v2`). -/
def cleanPalette : Option Palette → Option Palette
  | none => none
  | some p => if p.effects ≠ none then some { p with effects := none } else some p

/- ------------------------------------------------------------------
`duplicate_scene_command` (`commands/scene_management.py` lines 9–300).
------------------------------------------------------------------ -/

/-- The optional `--zone` candidate filter of `duplicate_scene_command`
(lines 61–83): restrict the scene candidates to the unique room/zone whose
name contains the query. -/
def dupFilterCandidates (scenes : List Scene) (groups : List HueGroup)
    (zone : Option String) : Except CmdErr (List Scene) :=
  match zone with
  | none => .ok scenes
  | some zq =>
    let zl := lowerStr zq
    match groups.filter (fun g => substrOf zl (lowerStr g.name)) with
    | [] => .error .zoneNotFound
    | [g] => .ok (scenes.filter (fun s => s.group_rid = some g.id))
    | _ => .error .zoneAmbiguous

/-- One `--turn-off` step of `duplicate_scene_command`: resolve the light
name, then apply the off edit. -/
def dupOffStep (lookup : List (String × String)) (acts : List HueAction)
    (light_name : String) : Except CmdErr (List HueAction) :=
  (find_light_rid lookup light_name).map (fun rid => apply_turn_off rid acts)

/-- One `--turn-on` step of `duplicate_scene_command`. -/
def dupOnStep (lookup : List (String × String)) (acts : List HueAction)
    (light_name : String) : Except CmdErr (List HueAction) :=
  (find_light_rid lookup light_name).map (fun rid => apply_turn_on rid acts)

/-- One `--brightness` step of `duplicate_scene_command` (lines 204–239):
validate the spec, resolve the light, and fail when the light has no action
in the scene. -/
def dupBrightnessStep (lookup : List (String × String)) (acts : List HueAction)
    (spec : String) : Except CmdErr (List HueAction) := do
  let (lname, v) ← parseBrightnessSpec spec
  let rid ← find_light_rid lookup lname
  match find_action_index acts rid with
  | some idx =>
    match acts.get? idx with
    | some a => .ok (acts.set idx (setBrightnessState v a))
    | none => .ok acts
  | none => .error (.lightNotInScene lname)

/-- One `--remove-light` step of `duplicate_scene_command` (lines 241–252):
delete the action entry when present, warn and continue when absent. -/
def dupRemoveStep (lookup : List (String × String)) (acts : List HueAction)
    (light_name : String) : Except CmdErr (List HueAction) := do
  let rid ← find_light_rid lookup light_name
  match find_action_index acts rid with
  | some idx => .ok (acts.eraseIdx idx)
  | none => .ok acts

/-- The action-list computation of `duplicate_scene_command`: the four edit
loops in source order (turn-off, turn-on, brightness, remove-light). -/
def dupApplyEdits (lookup : List (String × String)) (acts : List HueAction)
    (turn_off turn_on brightness remove_light : List String) :
    Except CmdErr (List HueAction) := do
  let a1 ← turn_off.foldlM (dupOffStep lookup) acts
  let a2 ← turn_on.foldlM (dupOnStep lookup) a1
  let a3 ← brightness.foldlM (dupBrightnessStep lookup) a2
  let a4 ← remove_light.foldlM (dupRemoveStep lookup) a3
  return a4

/-- `duplicate_scene_command`: resolve the source scene (optionally zone
filtered), apply the four edit groups to a copy of its actions, and issue one
`create_scene` call carrying the source scene's group, `auto_dynamic`,
`speed`, and `effects`-stripped palette. -/
def duplicate_scene_command (scenes : List Scene) (lights : List Light)
    (groups : List HueGroup) (source_scene new_name : String)
    (turn_on turn_off brightness remove_light : List String)
    (zone : Option String) : Except CmdErr (List Call) := do
  let candidates ← dupFilterCandidates scenes groups zone
  let src ←
    match resolveScene candidates source_scene with
    | .unique s => Except.ok s
    | .ambiguous _ => Except.error .sceneAmbiguous
    | .notFound => Except.error .sceneNotFound
  let lookup := light_reverse_lookup lights
  let new_actions ← dupApplyEdits lookup src.actions turn_off turn_on brightness remove_light
  return [Call.create new_name src.group_rid new_actions src.auto_dynamic src.speed
            (src.group_rtype.getD "zone") (cleanPalette src.palette)]

/- ------------------------------------------------------------------
`modify_scenes_command` (`commands/scene_management.py` lines 303–607).
------------------------------------------------------------------ -/

/-- One validated bulk operation (`light_operations` entries, lines 405–447). -/
inductive LightOp where
  | removeOp (rid : String)
  | offOp (rid : String)
  | onOp (rid : String)
  | brightOp (rid : String) (v : Dec10)
deriving DecidableEq

/-- Apply one validated operation to the running `(new_actions, modified)`
pair of the per-scene loop (lines 500–557).  A remove for an absent light and
a brightness for an absent light change nothing; the other arms append. -/
def applyOp (st : List HueAction × Bool) (op : LightOp) : List HueAction × Bool :=
  let acts := st.1
  let modified := st.2
  match op with
  | .removeOp rid =>
    match find_action_index acts rid with
    | some idx =>
      match acts.get? idx with
      | some a => (acts.set idx { a with action := offState }, true)
      | none => (acts, modified)
    | none => (acts, modified)
  | .offOp rid =>
    match find_action_index acts rid with
    | some idx =>
      match acts.get? idx with
      | some a => (acts.set idx { a with action := offState }, true)
      | none => (acts, modified)
    | none => (acts ++ [mkOffAction rid], true)
  | .onOp rid =>
    match find_action_index acts rid with
    | some idx =>
      match acts.get? idx with
      | some a => (acts.set idx { a with action := { a.action with onOn := some true } }, true)
      | none => (acts, modified)
    | none =>
      (acts ++ [{ target := { rid := some rid, rtype := some "light" },
                  action := { onOn := some true, dimming := some dec100,
                              color := none, color_temperature := none } }], true)
  | .brightOp rid v =>
    match find_action_index acts rid with
    | some idx =>
      match acts.get? idx with
      | some a => (acts.set idx (setBrightnessState v a), true)
      | none => (acts, modified)
    | none => (acts, modified)

/-- The upfront validation phase of `modify_scenes_command` (lines 404–447):
resolve every light name and build `light_operations` in source order —
remove, turn-off, turn-on, brightness. -/
def validateOps (lookup : List (String × String))
    (remove_light turn_off turn_on brightness : List String) :
    Except CmdErr (List LightOp) := do
  let ops1 ← remove_light.foldlM
    (fun acc n => (find_light_rid lookup n).map (fun rid => acc ++ [LightOp.removeOp rid])) []
  let ops2 ← turn_off.foldlM
    (fun acc n => (find_light_rid lookup n).map (fun rid => acc ++ [LightOp.offOp rid])) ops1
  let ops3 ← turn_on.foldlM
    (fun acc n => (find_light_rid lookup n).map (fun rid => acc ++ [LightOp.onOp rid])) ops2
  let ops4 ← brightness.foldlM
    (fun acc s => do
      let (lname, v) ← parseBrightnessSpec s
      let rid ← find_light_rid lookup lname
      return acc ++ [LightOp.brightOp rid v]) ops3
  return ops4

/-- The per-run outcome counters of `modify_scenes_command`. -/
structure Summary where
  succeeded : Nat
  skipped : Nat
  failed : Nat
deriving DecidableEq

/-- One iteration of the bulk loop (lines 482–594): apply the operations to a
copy of the scene's actions; skip when unmodified; otherwise create the
replacement scene and, only on successful creation, delete the original —
counting success whether or not the delete succeeds. -/
def bulkStep (createOk deleteOk : String → Bool) (group_rid : String)
    (ops : List LightOp) (st : Summary × List Call) (scene : Scene) : Summary × List Call :=
  let sum := st.1
  let calls := st.2
  let applied := ops.foldl applyOp (scene.actions, false)
  if applied.2 = false then ({ sum with skipped := sum.skipped + 1 }, calls)
  else
    let c := Call.create scene.name (some group_rid) applied.1 scene.auto_dynamic scene.speed
      (scene.group_rtype.getD "room") (cleanPalette scene.palette)
    if createOk scene.id then
      let calls' := calls ++ [c, Call.delete scene.id]
      if deleteOk scene.id then ({ sum with succeeded := sum.succeeded + 1 }, calls')
      else ({ sum with succeeded := sum.succeeded + 1 }, calls')
    else ({ sum with failed := sum.failed + 1 }, calls ++ [c])

/-- `modify_scenes_command`: resolve the room/zone, filter its scenes,
validate every edit upfront, then rewrite each scene sequentially with the
create-then-delete loop, returning the summary counters and the issued
calls. -/
def modify_scenes_command (scenes : List Scene) (lights : List Light)
    (groups : List HueGroup) (room : String)
    (remove_light turn_on turn_off brightness : List String)
    (createOk deleteOk : String → Bool) : Except CmdErr (Summary × List Call) := do
  let rl := lowerStr room
  let g ←
    match groups.filter (fun g => substrOf rl (lowerStr g.name)) with
    | [] => Except.error CmdErr.zoneNotFound
    | [g] => Except.ok g
    | _ => Except.error CmdErr.zoneAmbiguous
  let target_scenes := scenes.filter (fun s => s.group_rid = some g.id)
  if target_scenes.isEmpty then Except.error CmdErr.noScenes
  else do
    let lookup := light_reverse_lookup lights
    let ops ← validateOps lookup remove_light turn_off turn_on brightness
    if ops.isEmpty then Except.error CmdErr.noMods
    else
      return target_scenes.foldl (bulkStep createOk deleteOk g.id ops) (⟨0, 0, 0⟩, [])

/- ------------------------------------------------------------------
Spec-side definitions (each follows the words of the spec or of a claim, for
comparison with the definitions embedded from the source above).
------------------------------------------------------------------ -/

/-- Spec-side projection of one zone light (§4.3 of the spec): excluded → off,
else the source action for that light (the last one in source order, when
several target the same light), else off. -/
def projectSpecOne (source_actions : List HueAction) (excluded : List String)
    (rid : String) : HueAction :=
  if rid ∈ excluded then mkOffAction rid
  else
    match source_actions.reverse.find? (fun a => decide (a.target.rid = some rid)) with
    | some a => a
    | none => mkOffAction rid

/- ------------------------------------------------------------------
Helper lemmas.
------------------------------------------------------------------ -/

/-- `find?` ignores a filter by a weaker predicate. -/
theorem find?_filter_of_imp {α : Type} (p q : α → Bool) (l : List α)
    (h : ∀ a, p a = true → q a = true) :
    (l.filter q).find? p = l.find? p := by
  induction l with
  | nil => rfl
  | cons a l ih =>
    cases hq : q a with
    | true =>
      cases hp : p a with
      | true => simp [List.filter_cons, hq, List.find?, hp]
      | false => simp [List.filter_cons, hq, List.find?, hp, ih]
    | false =>
      have hp : p a = false := by
        cases hpa : p a with
        | true => rw [h a hpa] at hq; exact absurd hq (by simp)
        | false => rfl
      simp [List.filter_cons, hq, List.find?, hp, ih]

/-- The last element satisfying `p` is the last element of the filtered list. -/
theorem reverse_find?_eq_getLast?_filter {α : Type} (p : α → Bool) (l : List α) :
    l.reverse.find? p = (l.filter p).getLast? := by
  induction l with
  | nil => rfl
  | cons a l ih =>
    rw [List.reverse_cons, List.find?_append, ih, List.filter_cons]
    cases hp : p a with
    | true =>
      have hfa : List.find? p [a] = some a := by simp [List.find?, hp]
      rw [hfa]
      cases hfl : (l.filter p).getLast? with
      | some b => simp [Option.or, List.getLast?_cons, hfl, hp]
      | none => simp [Option.or, List.getLast?_cons, hfl, hp]
    | false =>
      have hfa : List.find? p [a] = none := by simp [List.find?, hp]
      rw [hfa, Option.or_none]
      simp [hp]

/-- The `action_lookup` fold agrees, on every in-zone rid, with "the last
source action targeting that rid". -/
theorem zoneActionLookup_foldl (acts : List HueAction) (zs : List String)
    (lk : String → Option HueAction) (rid : String) (h : rid ∈ zs) :
    (acts.foldl
      (fun lk a =>
        match a.target.rid with
        | some r => if r ∈ zs then fun q => if q = r then some a else lk q else lk
        | none => lk)
      lk) rid
      = ((acts.reverse.find? (fun a => decide (a.target.rid = some rid))).map some).getD (lk rid) := by
  induction acts generalizing lk with
  | nil => rfl
  | cons a acts ih =>
    rw [List.foldl_cons, ih, List.reverse_cons, List.find?_append]
    cases hfind : acts.reverse.find? (fun a => decide (a.target.rid = some rid)) with
    | some b => rfl
    | none =>
      simp only [Option.none_or]
      cases hr : a.target.rid with
      | none =>
        have hd : decide (a.target.rid = some rid) = false := by simp [hr]
        simp [List.find?, hd, hr]
      | some r =>
        by_cases hmem : r ∈ zs
        · by_cases heq : rid = r
          · subst heq
            have hd : decide (a.target.rid = some rid) = true := by simp [hr]
            simp [List.find?, hd, hr, hmem]
          · have hd2 : decide (r = rid) = false :=
              decide_eq_false (fun hh => heq hh.symm)
            simp [List.find?, hr, hmem, heq, hd2]
        · have hne : ¬ rid = r := fun hh => hmem (hh ▸ h)
          have hd2 : decide (r = rid) = false :=
            decide_eq_false (fun hh => hne hh.symm)
          simp [List.find?, hr, hmem, hd2]

/-- On an in-zone rid the action lookup is precisely the last matching source
action. -/
theorem zoneActionLookup_eq (acts : List HueAction) (zs : List String) (rid : String)
    (h : rid ∈ zs) :
    zoneActionLookup acts zs rid
      = acts.reverse.find? (fun a => decide (a.target.rid = some rid)) := by
  unfold zoneActionLookup
  rw [zoneActionLookup_foldl acts zs _ rid h]
  cases acts.reverse.find? (fun a => decide (a.target.rid = some rid)) <;> rfl

/-- Every projected action targets the rid it was projected for. -/
theorem projectSpecOne_target_rid (acts : List HueAction) (ex : List String) (rid : String) :
    (projectSpecOne acts ex rid).target.rid = some rid := by
  unfold projectSpecOne
  by_cases hex : rid ∈ ex
  · simp [hex, mkOffAction]
  · simp only [if_neg hex]
    cases hfind : acts.reverse.find? (fun a => decide (a.target.rid = some rid)) with
    | some a =>
      have := List.find?_some hfind
      simpa using this
    | none => simp [mkOffAction]

/- ------------------------------------------------------------------
Concrete builders for witnesses and counterexamples.
------------------------------------------------------------------ -/

/-- Does this action target a light inside the zone?  (Used to state that
out-of-zone source actions are ignored.) -/
def inZonePred (zone_lights : List String) (a : HueAction) : Bool :=
  match a.target.rid with
  | some r => decide (r ∈ zone_lights)
  | none => false

/-- A scene with the given actions and unremarkable metadata. -/
def sampleScene (acts : List HueAction) : Scene :=
  { id := "s1", name := "Scene1", group_rid := some "g1", group_rtype := some "room",
    actions := acts, auto_dynamic := true, speed := ⟨6, 1⟩, palette := none }

/-- An "on" action for a light, with optional brightness. -/
def onAction (rid : String) (dim : Option Dec10) : HueAction :=
  { target := { rid := some rid, rtype := some "light" },
    action := { onOn := some true, dimming := dim, color := none, color_temperature := none } }

/- ------------------------------------------------------------------
C1 — the Zone Action Projector contract.
------------------------------------------------------------------ -/

/-- C1: for every source scene, ordered group light-id list and excluded-id
set, `filter_scene_actions_for_zone` returns exactly one action per entry of
the group list, in the group list's order: an excluded id yields the minimal
off action (discarding any source action for it), an id with a source action
yields that action verbatim (the last one in source order), and an id with no
source action yields the off action.  Source actions whose target id is not
in the group list are silently ignored (restricting the source actions to the
in-group ones changes nothing), the output has exactly the group list's
length, and — for a duplicate-free group list — exactly one output action
targets each group id.  The function is total by construction. -/
theorem C1_zone_projector_contract (scene : Scene)
    (zone_lights exclude_lights : List String) :
    filter_scene_actions_for_zone scene zone_lights exclude_lights
      = zone_lights.map (projectSpecOne scene.actions exclude_lights)
    ∧ (filter_scene_actions_for_zone scene zone_lights exclude_lights).length
        = zone_lights.length
    ∧ filter_scene_actions_for_zone scene zone_lights exclude_lights
        = filter_scene_actions_for_zone
            { scene with actions := scene.actions.filter (inZonePred zone_lights) }
            zone_lights exclude_lights
    ∧ (zone_lights.Nodup → ∀ rid ∈ zone_lights,
        ((filter_scene_actions_for_zone scene zone_lights exclude_lights).filter
            (fun a => decide (a.target.rid = some rid))).length = 1) := by
  have hmain : ∀ (acts : List HueAction),
      filter_scene_actions_for_zone { scene with actions := acts } zone_lights exclude_lights
        = zone_lights.map (projectSpecOne acts exclude_lights) := by
    intro acts
    simp only [filter_scene_actions_for_zone]
    refine List.map_congr_left ?_
    intro rid hr
    simp only [projectSpecOne]
    rw [zoneActionLookup_eq acts zone_lights rid hr]
  have hscene : filter_scene_actions_for_zone scene zone_lights exclude_lights
      = zone_lights.map (projectSpecOne scene.actions exclude_lights) := hmain scene.actions
  refine ⟨hscene, by rw [hscene, List.length_map], ?_, ?_⟩
  · rw [hscene, hmain]
    refine List.map_congr_left ?_
    intro rid hr
    simp only [projectSpecOne]
    by_cases hex : rid ∈ exclude_lights
    · simp [hex]
    · simp only [if_neg hex]
      have hrev : (scene.actions.filter (inZonePred zone_lights)).reverse
          = scene.actions.reverse.filter (inZonePred zone_lights) :=
        (List.filter_reverse _ _).symm
      rw [hrev, find?_filter_of_imp]
      intro a ha
      have : a.target.rid = some rid := by simpa using ha
      simp [inZonePred, this, hr]
  · intro hnd rid hrid
    rw [hscene, List.filter_map, List.length_map]
    have hcg : List.filter
          ((fun a => decide (a.target.rid = some rid))
            ∘ projectSpecOne scene.actions exclude_lights) zone_lights
        = List.filter (fun r => r == rid) zone_lights := by
      refine List.filter_congr ?_
      intro r _
      simp only [Function.comp, projectSpecOne_target_rid]
      by_cases hh : r = rid
      · subst hh; simp
      · simp [hh]
    rw [hcg, ← List.countP_eq_length_filter]
    have : List.countP (fun r => r == rid) zone_lights = List.count rid zone_lights := rfl
    rw [this]
    exact List.count_eq_one_of_mem hnd hrid

/-- C1 witness scene: only light `A` appears in the source actions. -/
def c1Scene : Scene := sampleScene [onAction "A" (some ⟨500, 1⟩)]

/-- Witness for C1 at a concrete input: a group `[A, B, C]` with `B` excluded
projects to the source action for `A`, off for `B`, off for `C`; and exactly
one output action targets `A`. -/
theorem C1_witness :
    filter_scene_actions_for_zone c1Scene ["A", "B", "C"] ["B"]
      = [onAction "A" (some ⟨500, 1⟩), mkOffAction "B", mkOffAction "C"]
    ∧ ((filter_scene_actions_for_zone c1Scene ["A", "B", "C"] ["B"]).filter
        (fun a => decide (a.target.rid = some "A"))).length = 1 :=
  ⟨by decide,
   (C1_zone_projector_contract c1Scene ["A", "B", "C"] ["B"]).2.2.2 (by decide) "A" (by decide)⟩

/- ------------------------------------------------------------------
C10 — duplicate source actions for one light: last one wins.
------------------------------------------------------------------ -/

/-- C10: when the source action list holds more than one action targeting the
same in-group, non-excluded light, the projected output at that light's group
position is the last such action in source order (the last element of the
filtered sub-list); earlier duplicates are discarded. -/
theorem C10_duplicate_rid_last_wins (scene : Scene)
    (zone_lights exclude_lights : List String) (rid : String) (i : Nat)
    (hi : i < zone_lights.length) (hrid : zone_lights.get ⟨i, hi⟩ = rid)
    (hex : rid ∉ exclude_lights)
    (hdup : 2 ≤ (scene.actions.filter
        (fun a => decide (a.target.rid = some rid))).length) :
    (filter_scene_actions_for_zone scene zone_lights exclude_lights).get? i
      = (scene.actions.filter (fun a => decide (a.target.rid = some rid))).getLast? := by
  have hmem : rid ∈ zone_lights := hrid ▸ List.get_mem zone_lights i hi
  have hget : zone_lights.get? i = some rid := by
    rw [List.get?_eq_get hi, hrid]
  simp only [filter_scene_actions_for_zone]
  rw [List.get?_map, hget]
  simp only [Option.map_some']
  rw [zoneActionLookup_eq scene.actions zone_lights rid hmem,
    reverse_find?_eq_getLast?_filter]
  cases hlast : (scene.actions.filter (fun a => decide (a.target.rid = some rid))).getLast? with
  | some a => simp [if_neg hex]
  | none =>
    exfalso
    rw [List.getLast?_eq_none_iff] at hlast
    rw [hlast] at hdup
    simp at hdup

/-- C10 witness scene: two source actions target light `A`; the second one
(brightness 30.0) must win. -/
def c10Scene : Scene := sampleScene [onAction "A" (some ⟨500, 1⟩), onAction "A" (some ⟨300, 1⟩)]

/-- Witness for C10 at a concrete input. -/
theorem C10_witness :
    (filter_scene_actions_for_zone c10Scene ["A"] []).get? 0
      = (c10Scene.actions.filter (fun a => decide (a.target.rid = some "A"))).getLast? :=
  C10_duplicate_rid_last_wins c10Scene ["A"] [] "A" 0 (by decide) (by decide) (by decide) (by decide)

/- ------------------------------------------------------------------
C2 — turn-off clears brightness and colour.
------------------------------------------------------------------ -/

/-- C2: for every action whose state has any of the `dimming` / `color` /
`color_temperature` keys, a turn-off edit for the light it targets rewrites
its state to exactly `{on: {on: false}}` — in the single-scene duplication
path (`apply_turn_off`) and in the bulk path (`applyOp` with a turn-off
operation) alike. -/
theorem C2_turn_off_clears_colour (acts : List HueAction) (rid : String) (i : Nat)
    (a : HueAction) (m : Bool)
    (hfind : find_action_index acts rid = some i)
    (hget : acts.get? i = some a)
    (hkeys : a.action.dimming ≠ none ∨ a.action.color ≠ none
      ∨ a.action.color_temperature ≠ none) :
    (apply_turn_off rid acts).get? i = some { target := a.target, action := offState }
    ∧ ((applyOp (acts, m) (LightOp.offOp rid)).1).get? i
        = some { target := a.target, action := offState }
    ∧ offState = ActionState.mk (some false) none none none := by
  have hset : (acts.set i { a with action := offState }).get? i
      = some { target := a.target, action := offState } := by
    rw [List.get?_set_eq, hget]
    rfl
  refine ⟨?_, ?_, rfl⟩
  · simp only [apply_turn_off, hfind, hget]
    exact hset
  · simp only [applyOp, hfind, hget]
    exact hset

/-- Witness for C2: turning light `A` off on a scene whose action for `A` is
on at brightness 50.0 leaves exactly the off state. -/
theorem C2_witness :
    (apply_turn_off "A" [onAction "A" (some ⟨500, 1⟩)]).get? 0
      = some { target := (onAction "A" (some ⟨500, 1⟩)).target, action := offState } :=
  (C2_turn_off_clears_colour [onAction "A" (some ⟨500, 1⟩)] "A" 0
    (onAction "A" (some ⟨500, 1⟩)) false (by decide) (by decide)
    (Or.inl (by decide))).1

/- ------------------------------------------------------------------
C6 — the scene-name generator.
------------------------------------------------------------------ -/

/-- The name policy as claim C6 states it: strip one leading `"Combined "`
prefix case-insensitively, compose, suffix, truncate. -/
def generateNameClaim (original_name zone_name : List Char) (has_exclusions : Bool) :
    List Char :=
  let zone_short :=
    if (zone_name.take 9).map lowerChar = "combined ".data then zone_name.drop 9
    else zone_name
  let base_name := original_name ++ " (".data ++ zone_short ++ ")".data
  let base_name := if has_exclusions then base_name ++ " -X".data else base_name
  if base_name.length > MAX_SCENE_NAME_LENGTH then base_name.take MAX_SCENE_NAME_LENGTH
  else base_name

/-- C6 counterexample: the generator does not strip `"Combined "`
case-insensitively — an upper-case `"COMBINED "` prefix is kept verbatim,
where the claimed policy would strip it. -/
theorem C6_counterexample :
    generate_zone_scene_name "A".data "COMBINED Lounge".data [] []
        = "A (COMBINED Lounge)".data
    ∧ generateNameClaim "A".data "COMBINED Lounge".data false = "A (Lounge)".data
    ∧ generate_zone_scene_name "A".data "COMBINED Lounge".data [] []
        ≠ generateNameClaim "A".data "COMBINED Lounge".data false
    ∧ generate_zone_scene_name "A".data "My Combined Zone".data [] []
        ≠ generateNameClaim "A".data "My Combined Zone".data false := by
  refine ⟨by decide, by decide, by decide, by decide⟩

/-- The composed, untruncated name the source builds: original, parenthesised
zone short name (both exact-case `"Combined "` replacements applied), and the
exclusion suffix when the excluded list is non-empty. -/
def composedName (o z : List Char) (ex : List String) : List Char :=
  o ++ " (".data ++ replaceAll "combined ".data [] (replaceAll "Combined ".data [] z)
    ++ ")".data ++ (if ex.isEmpty then [] else " -X".data)

/-- C6 as amended: the generator replaces every occurrence of the exact-case
strings `"Combined "` and then `"combined "` anywhere in the zone name (not a
case-insensitive prefix strip), composes `original (zone_short)`, appends
`" -X"` exactly when the excluded list is non-empty, and truncates to 32
characters; the result never exceeds 32 characters, and the function is a
pure function of its arguments. -/
theorem C6_name_generator_amended (o z : List Char) (ex : List String)
    (lk : List (String × String)) :
    generate_zone_scene_name o z ex lk = (composedName o z ex).take MAX_SCENE_NAME_LENGTH
    ∧ (generate_zone_scene_name o z ex lk).length ≤ MAX_SCENE_NAME_LENGTH := by
  have hgen : generate_zone_scene_name o z ex lk
      = if (composedName o z ex).length > MAX_SCENE_NAME_LENGTH then
          (composedName o z ex).take MAX_SCENE_NAME_LENGTH
        else composedName o z ex := by
    simp only [generate_zone_scene_name, composedName]
    cases hex : ex.isEmpty <;> simp
  constructor
  · rw [hgen]
    by_cases hlen : (composedName o z ex).length > MAX_SCENE_NAME_LENGTH
    · rw [if_pos hlen]
    · rw [if_neg hlen, List.take_of_length_le (by omega)]
  · rw [hgen]
    by_cases hlen : (composedName o z ex).length > MAX_SCENE_NAME_LENGTH
    · rw [if_pos hlen]
      simp only [List.length_take]
      omega
    · rw [if_neg hlen]
      omega

/- ------------------------------------------------------------------
C8 — resolver on candidates ["Relax", "Relax Bright"], query "relax".
------------------------------------------------------------------ -/

/-- The scene named `Relax`. -/
def relaxScene : Scene :=
  { id := "sA", name := "Relax", group_rid := some "g1", group_rtype := some "room",
    actions := [], auto_dynamic := true, speed := ⟨6, 1⟩, palette := none }

/-- The scene named `Relax Bright`. -/
def relaxBrightScene : Scene :=
  { id := "sB", name := "Relax Bright", group_rid := some "g1", group_rtype := some "room",
    actions := [], auto_dynamic := true, speed := ⟨6, 1⟩, palette := none }

/-- C8 counterexample: on candidates `["Relax", "Relax Bright"]` the query
`"relax"` does NOT produce the ambiguous outcome — the exact case-insensitive
stage matches only `"Relax"` and resolution returns it uniquely. -/
theorem C8_counterexample :
    resolveScene [relaxScene, relaxBrightScene] "relax" = .unique relaxScene
    ∧ (resolveScene [relaxScene, relaxBrightScene] "relax").isAmbiguous = false := by
  refine ⟨by decide, by decide⟩

/-- C8 as amended: for candidates `["Relax", "Relax Bright"]` and query
`"relax"`, the exact case-insensitive match stage finds exactly `"Relax"`, so
resolution returns it as the unique result and the substring stage (which
would have matched both) is never consulted; `duplicate_scene_command` with
this source query therefore duplicates the `Relax` scene. -/
theorem C8_exact_match_unique :
    ([relaxScene, relaxBrightScene].filter
        (fun s => lowerStr s.name = lowerStr "relax")) = [relaxScene]
    ∧ resolveScene [relaxScene, relaxBrightScene] "relax" = .unique relaxScene
    ∧ duplicate_scene_command [relaxScene, relaxBrightScene] [] [] "relax" "Copy"
        [] [] [] [] none
      = .ok [Call.create "Copy" (some "g1") [] true ⟨6, 1⟩ "room" none] := by
  refine ⟨by decide, by decide, by decide⟩

/- ------------------------------------------------------------------
C7 — not-found behaviour of name resolution.
------------------------------------------------------------------ -/

/-- C7 counterexample: the zone resolver auto-picks a merely similar
candidate.  For the single zone `"Lounge"` and the query `"Longue"` there is
no exact case-insensitive match and no case-insensitive substring match, yet
`find_zone_by_name` returns the `"Lounge"` zone (similarity 2/3 ≥ 0.6) rather
than a not-found outcome. -/
theorem C7_counterexample :
    ([(⟨"z1", "Lounge"⟩ : Zone)].find?
        (fun z => lowerStr z.name = lowerStr "Longue")) = none
    ∧ substrOf (lowerStr "Longue") (lowerStr "Lounge") = false
    ∧ find_zone_by_name [⟨"z1", "Lounge"⟩] "Longue" = (some ⟨"z1", "Lounge"⟩, []) := by
  refine ⟨by decide, by decide, by decide⟩

/-- C7 as amended: the scene-resolution path returns not-found (with no
auto-pick) when there is no exact and no substring match; the zone-resolution
path, however, auto-picks the best fuzzy match at threshold 0.6 when one
exists, and only returns no zone — together with the 0.3-threshold
similarity-ranked suggestion list, possibly empty — when no candidate reaches
0.6. -/
theorem C7_resolution_amended (zones : List Zone) (q1 : String)
    (h1 : zones.find? (fun z => lowerStr z.name = lowerStr q1) = none)
    (h2 : find_similar_strings q1 (zones.map Zone.name) 3 5 = [])
    (scenes : List Scene) (q2 : String)
    (h3 : scenes.filter (fun s => lowerStr s.name = lowerStr q2) = [])
    (h4 : scenes.filter (fun s => substrOf (lowerStr q2) (lowerStr s.name)) = []) :
    find_zone_by_name zones q1
      = (none, find_similar_strings q1 (zones.map Zone.name) 3 10)
    ∧ resolveScene scenes q2 = .notFound := by
  constructor
  · simp only [find_zone_by_name]
    rw [h1, h2]
  · simp only [resolveScene]
    rw [h3, h4]

/-- Witness for C7 at a concrete input: one zone `"Pq"`, query `"Ab"`
(similarity 0 — below both thresholds), and an empty scene list. -/
theorem C7_witness :
    find_zone_by_name [⟨"z1", "Pq"⟩] "Ab"
      = (none, find_similar_strings "Ab" ["Pq"] 3 10)
    ∧ resolveScene [] "x" = .notFound :=
  C7_resolution_amended [⟨"z1", "Pq"⟩] "Ab" (by decide) (by decide) [] "x"
    (by decide) (by decide)

/- ------------------------------------------------------------------
C5 — bulk create/delete outcome accounting.
------------------------------------------------------------------ -/

/-- C5: in the bulk rewrite loop, when a scene's edits modify it, a
successful creation counts the scene as succeeded and issues the delete of
the original — whatever the delete returns (the step does not depend on the
delete oracle at all); a failed creation counts it as failed and issues no
delete; and the loop then continues with the remaining scenes. -/
theorem C5_create_delete_outcomes (createOk deleteOk d1 d2 : String → Bool)
    (grid : String) (ops : List LightOp) (sum : Summary) (calls : List Call)
    (scene : Scene) (rest : List Scene) (st : Summary × List Call)
    (hmod : (ops.foldl applyOp (scene.actions, false)).2 = true) :
    (createOk scene.id = true →
      bulkStep createOk deleteOk grid ops (sum, calls) scene
        = (Summary.mk (sum.succeeded + 1) sum.skipped sum.failed,
           calls ++ [Call.create scene.name (some grid)
               (ops.foldl applyOp (scene.actions, false)).1 scene.auto_dynamic scene.speed
               (scene.group_rtype.getD "room") (cleanPalette scene.palette),
             Call.delete scene.id]))
    ∧ (createOk scene.id = false →
      bulkStep createOk deleteOk grid ops (sum, calls) scene
        = (Summary.mk sum.succeeded sum.skipped (sum.failed + 1),
           calls ++ [Call.create scene.name (some grid)
               (ops.foldl applyOp (scene.actions, false)).1 scene.auto_dynamic scene.speed
               (scene.group_rtype.getD "room") (cleanPalette scene.palette)]))
    ∧ bulkStep createOk d1 grid ops (sum, calls) scene
        = bulkStep createOk d2 grid ops (sum, calls) scene
    ∧ (scene :: rest).foldl (bulkStep createOk deleteOk grid ops) st
        = rest.foldl (bulkStep createOk deleteOk grid ops)
            (bulkStep createOk deleteOk grid ops st scene) := by
  refine ⟨?_, ?_, ?_, rfl⟩
  · intro hc
    simp [bulkStep, hmod, hc]
  · intro hc
    simp [bulkStep, hmod, hc]
  · by_cases hc : createOk scene.id = true
    · by_cases h2 : (ops.foldl applyOp (scene.actions, false)).2 = false
      · simp [bulkStep, h2]
      · simp [bulkStep, h2, hc]
    · rw [Bool.not_eq_true] at hc
      by_cases h2 : (ops.foldl applyOp (scene.actions, false)).2 = false
      · simp [bulkStep, h2]
      · simp [bulkStep, h2, hc]

/-- Witness for C5 at a concrete input: one modifying operation, creation
succeeds, the delete oracle FAILS — the scene still counts as succeeded and
both calls were issued. -/
theorem C5_witness :
    bulkStep (fun _ => true) (fun _ => false) "g1" [LightOp.offOp "A"]
        (⟨0, 0, 0⟩, []) (sampleScene [])
      = (⟨1, 0, 0⟩,
         [Call.create "Scene1" (some "g1") [mkOffAction "A"] true ⟨6, 1⟩ "room" none,
          Call.delete "s1"]) :=
  (C5_create_delete_outcomes (fun _ => true) (fun _ => false) (fun _ => true)
    (fun _ => false) "g1" [LightOp.offOp "A"] ⟨0, 0, 0⟩ [] (sampleScene []) []
    (⟨0, 0, 0⟩, []) (by decide)).1 rfl

/- ------------------------------------------------------------------
C9 — frame effects of remove-for-absent-light and the skip path.
------------------------------------------------------------------ -/

/-- C9: in the bulk path a remove operation for a light with no action in the
scene changes neither the action list nor the modified flag (no off action is
appended — unlike a turn-off operation for an absent light, which appends one
and marks the scene modified); and a scene whose operations produce no change
is counted as skipped, with no create or delete call issued for it. -/
theorem C9_remove_absent_frame (acts : List HueAction) (m : Bool) (rid : String)
    (ops : List LightOp) (scene : Scene) (createOk deleteOk : String → Bool)
    (grid : String) (sum : Summary) (calls : List Call)
    (habsent : find_action_index acts rid = none)
    (hnm : (ops.foldl applyOp (scene.actions, false)).2 = false) :
    applyOp (acts, m) (LightOp.removeOp rid) = (acts, m)
    ∧ applyOp (acts, m) (LightOp.offOp rid) = (acts ++ [mkOffAction rid], true)
    ∧ bulkStep createOk deleteOk grid ops (sum, calls) scene
        = (Summary.mk sum.succeeded (sum.skipped + 1) sum.failed, calls) := by
  refine ⟨?_, ?_, ?_⟩
  · simp [applyOp, habsent]
  · simp [applyOp, habsent]
  · simp [bulkStep, hnm]

/-- Witness for C9 at a concrete input: removing light `A` from an empty
action list is a no-op, turning it off appends the off action, and a scene
only touched by a brightness operation for an absent light is skipped with no
calls. -/
theorem C9_witness :
    applyOp ([], false) (LightOp.removeOp "A") = ([], false)
    ∧ applyOp ([], false) (LightOp.offOp "A") = ([mkOffAction "A"], true)
    ∧ bulkStep (fun _ => true) (fun _ => true) "g1" [LightOp.brightOp "A" ⟨500, 1⟩]
        (⟨0, 0, 0⟩, []) (sampleScene [])
        = (⟨0, 1, 0⟩, []) :=
  C9_remove_absent_frame [] false "A" [LightOp.brightOp "A" ⟨500, 1⟩] (sampleScene [])
    (fun _ => true) (fun _ => true) "g1" ⟨0, 0, 0⟩ [] (by decide) (by decide)

/- ------------------------------------------------------------------
C4 — the order in which the edit groups are applied.
------------------------------------------------------------------ -/

/-- One user edit of the duplication path, tagged by group. -/
inductive DupEdit where
  | offE (light_name : String)
  | onE (light_name : String)
  | brightE (spec : String)
  | removeE (light_name : String)
deriving DecidableEq

/-- Dispatch one duplication-path edit to its step. -/
def dupEditStep (lookup : List (String × String)) (acts : List HueAction) :
    DupEdit → Except CmdErr (List HueAction)
  | .offE n => dupOffStep lookup acts n
  | .onE n => dupOnStep lookup acts n
  | .brightE s => dupBrightnessStep lookup acts s
  | .removeE n => dupRemoveStep lookup acts n

/-- Validate one bulk brightness spec into its operation. -/
def brightOpOf (lookup : List (String × String)) (s : String) : Except CmdErr LightOp := do
  let (lname, v) ← parseBrightnessSpec s
  let rid ← find_light_rid lookup lname
  return LightOp.brightOp rid v

/-- The order claim C4 asserts for the bulk path: turn-off first, then
turn-on, then brightness, then remove. -/
def specOrderOps (ops : List LightOp) : List LightOp :=
  ops.filter (fun o => match o with | LightOp.offOp _ => true | _ => false)
    ++ ops.filter (fun o => match o with | LightOp.onOp _ => true | _ => false)
    ++ ops.filter (fun o => match o with | LightOp.brightOp _ _ => true | _ => false)
    ++ ops.filter (fun o => match o with | LightOp.removeOp _ => true | _ => false)

/-- Reduction of an `Except` bind on a success value. -/
theorem exceptBindOk {α β : Type} (a : α) (f : α → Except CmdErr β) :
    (Except.ok a >>= f : Except CmdErr β) = f a := rfl

/-- Reduction of an `Except` bind on an error value. -/
theorem exceptBindError {α β : Type} (e : CmdErr) (f : α → Except CmdErr β) :
    ((Except.error e : Except CmdErr α) >>= f) = Except.error e := rfl

/-- Reduction of an `Except` map on a success value. -/
theorem exceptMapOk {α β : Type} (f : α → β) (a : α) :
    (Except.map f (Except.ok a : Except CmdErr α)) = Except.ok (f a) := rfl

/-- Reduction of an `Except` map on an error value. -/
theorem exceptMapError {α β : Type} (f : α → β) (e : CmdErr) :
    (Except.map f (Except.error e : Except CmdErr α)) = Except.error e := rfl

/-- An accumulate-one-result validation fold is a `mapM` followed by an
append. -/
theorem foldlM_snoc_eq {α γ : Type} (step : List γ → α → Except CmdErr (List γ))
    (g : α → Except CmdErr γ)
    (hstep : ∀ acc a, step acc a = (g a).map (fun b => acc ++ [b])) :
    ∀ (xs : List α) (acc : List γ),
      List.foldlM step acc xs = (xs.mapM g).map (fun bs => acc ++ bs) := by
  intro xs
  induction xs with
  | nil =>
    intro acc
    rw [List.foldlM_nil, List.mapM_nil]
    show Except.ok acc = Except.ok (acc ++ [])
    rw [List.append_nil]
  | cons x xs ih =>
    intro acc
    rw [List.foldlM_cons, hstep, List.mapM_cons]
    cases hg : g x with
    | error e => rfl
    | ok b =>
      show List.foldlM step (acc ++ [b]) xs = _
      rw [ih]
      cases hm : xs.mapM g with
      | error e => rfl
      | ok l =>
        show Except.ok (acc ++ [b] ++ l) = Except.ok (acc ++ (b :: l))
        rw [List.append_assoc]
        rfl

/-- C4 as amended: the single-scene duplication path applies the edit groups
in the order turn-off, turn-on, brightness, remove — its four loops equal one
pass over the concatenated, group-ordered edit list; the bulk path instead
validates and applies the groups in the order remove, turn-off, turn-on,
brightness: its `light_operations` list is the concatenation of the four
resolution passes in that order, and the per-scene fold factors through the
four groups in that same order. -/
theorem C4_edit_order_amended (lookup : List (String × String)) (acts : List HueAction)
    (turn_off turn_on brightness remove_light : List String) :
    dupApplyEdits lookup acts turn_off turn_on brightness remove_light
      = (turn_off.map DupEdit.offE ++ turn_on.map DupEdit.onE
          ++ brightness.map DupEdit.brightE
          ++ remove_light.map DupEdit.removeE).foldlM (dupEditStep lookup) acts
    ∧ validateOps lookup remove_light turn_off turn_on brightness
      = (do
          let r ← remove_light.mapM (fun n => (find_light_rid lookup n).map LightOp.removeOp)
          let o ← turn_off.mapM (fun n => (find_light_rid lookup n).map LightOp.offOp)
          let n ← turn_on.mapM (fun n => (find_light_rid lookup n).map LightOp.onOp)
          let b ← brightness.mapM (brightOpOf lookup)
          return r ++ o ++ n ++ b)
    ∧ ∀ (ops1 ops2 ops3 ops4 : List LightOp) (st : List HueAction × Bool),
        (ops1 ++ ops2 ++ ops3 ++ ops4).foldl applyOp st
          = ops4.foldl applyOp (ops3.foldl applyOp (ops2.foldl applyOp
              (ops1.foldl applyOp st))) := by
  refine ⟨?_, ?_, ?_⟩
  · simp only [List.foldlM_append, List.foldlM_map]
    have h1 : (fun (x : List HueAction) (y : String) => dupEditStep lookup x (DupEdit.offE y))
        = dupOffStep lookup := rfl
    have h2 : (fun (x : List HueAction) (y : String) => dupEditStep lookup x (DupEdit.onE y))
        = dupOnStep lookup := rfl
    have h3 : (fun (x : List HueAction) (y : String) => dupEditStep lookup x (DupEdit.brightE y))
        = dupBrightnessStep lookup := rfl
    have h4 : (fun (x : List HueAction) (y : String) => dupEditStep lookup x (DupEdit.removeE y))
        = dupRemoveStep lookup := rfl
    simp only [h1, h2, h3, h4, dupApplyEdits]
    cases hA : List.foldlM (dupOffStep lookup) acts turn_off with
    | error e => rfl
    | ok a1 =>
      simp only [exceptBindOk]
      cases hB : List.foldlM (dupOnStep lookup) a1 turn_on with
      | error e => rfl
      | ok a2 =>
        simp only [exceptBindOk]
        cases hC : List.foldlM (dupBrightnessStep lookup) a2 brightness with
        | error e => rfl
        | ok a3 =>
          simp only [exceptBindOk]
          cases hD : List.foldlM (dupRemoveStep lookup) a3 remove_light with
          | error e => rfl
          | ok a4 => rfl
  · have hrm := foldlM_snoc_eq
      (fun acc n => (find_light_rid lookup n).map (fun rid => acc ++ [LightOp.removeOp rid]))
      (fun n => (find_light_rid lookup n).map LightOp.removeOp)
      (by
        intro acc a
        show Except.map _ (find_light_rid lookup a)
          = Except.map _ (Except.map LightOp.removeOp (find_light_rid lookup a))
        cases h : find_light_rid lookup a <;> rfl)
    have hoff := foldlM_snoc_eq
      (fun acc n => (find_light_rid lookup n).map (fun rid => acc ++ [LightOp.offOp rid]))
      (fun n => (find_light_rid lookup n).map LightOp.offOp)
      (by
        intro acc a
        show Except.map _ (find_light_rid lookup a)
          = Except.map _ (Except.map LightOp.offOp (find_light_rid lookup a))
        cases h : find_light_rid lookup a <;> rfl)
    have hon := foldlM_snoc_eq
      (fun acc n => (find_light_rid lookup n).map (fun rid => acc ++ [LightOp.onOp rid]))
      (fun n => (find_light_rid lookup n).map LightOp.onOp)
      (by
        intro acc a
        show Except.map _ (find_light_rid lookup a)
          = Except.map _ (Except.map LightOp.onOp (find_light_rid lookup a))
        cases h : find_light_rid lookup a <;> rfl)
    have hbr := foldlM_snoc_eq
      (fun acc s => do
        let (lname, v) ← parseBrightnessSpec s
        let rid ← find_light_rid lookup lname
        return acc ++ [LightOp.brightOp rid v])
      (brightOpOf lookup)
      (by
        intro acc a
        simp only [brightOpOf]
        cases hp : parseBrightnessSpec a with
        | error e => rfl
        | ok p =>
          obtain ⟨lname, v⟩ := p
          simp only [exceptBindOk]
          cases hf : find_light_rid lookup lname with
          | error e => rfl
          | ok rid => rfl)
    simp only [validateOps, hrm, hoff, hon, hbr]
    cases h1 : remove_light.mapM (fun n => (find_light_rid lookup n).map LightOp.removeOp) with
    | error e => rfl
    | ok r =>
      simp only [exceptMapOk, exceptBindOk]
      cases h2 : turn_off.mapM (fun n => (find_light_rid lookup n).map LightOp.offOp) with
      | error e => rfl
      | ok o =>
        simp only [exceptMapOk, exceptBindOk]
        cases h3 : turn_on.mapM (fun n => (find_light_rid lookup n).map LightOp.onOp) with
        | error e => rfl
        | ok n =>
          simp only [exceptMapOk, exceptBindOk]
          cases h4 : brightness.mapM (brightOpOf lookup) with
          | error e => rfl
          | ok b => rfl
  · intro ops1 ops2 ops3 ops4 st
    simp [List.foldl_append]

/-- C4 counterexample: the bulk path does not apply turn-off/turn-on/
brightness/remove in that order.  With a scene whose light `L1` is on at
brightness 50.0 and the edits remove(`lamp`) + turn-on(`lamp`), the command
applies remove first and turn-on second, ending with the light ON (no
dimming); the claimed order would end with the light OFF. -/
theorem C4_counterexample :
    modify_scenes_command [sampleScene [onAction "L1" (some ⟨500, 1⟩)]] [⟨"L1", "lamp"⟩]
        [⟨"g1", "Living Room"⟩] "Living" ["lamp"] ["lamp"] [] []
        (fun _ => true) (fun _ => true)
      = .ok (⟨1, 0, 0⟩,
        [Call.create "Scene1" (some "g1")
            [{ target := { rid := some "L1", rtype := some "light" },
               action := { onOn := some true, dimming := none, color := none,
                           color_temperature := none } }]
            true ⟨6, 1⟩ "room" none,
         Call.delete "s1"])
    ∧ validateOps (light_reverse_lookup [⟨"L1", "lamp"⟩]) ["lamp"] [] ["lamp"] []
        = .ok [LightOp.removeOp "L1", LightOp.onOp "L1"]
    ∧ (specOrderOps [LightOp.removeOp "L1", LightOp.onOp "L1"]).foldl applyOp
          ([onAction "L1" (some ⟨500, 1⟩)], false)
        ≠ ([LightOp.removeOp "L1", LightOp.onOp "L1"]).foldl applyOp
          ([onAction "L1" (some ⟨500, 1⟩)], false) := by
  refine ⟨by decide, by decide, by decide⟩

/- ------------------------------------------------------------------
C3 — a bad brightness spec rejects the whole operation.
------------------------------------------------------------------ -/

/-- A monadic fold fails whenever the list contains an element on which the
step fails regardless of the accumulator. -/
theorem foldlM_isOk_false {α β : Type} (f : β → α → Except CmdErr β) (xs : List α)
    (x : α) (hx : x ∈ xs) (hf : ∀ b, (f b x).isOk = false) :
    ∀ b, (xs.foldlM f b).isOk = false := by
  induction xs with
  | nil => cases hx
  | cons y ys ih =>
    intro b
    rw [List.foldlM_cons]
    cases hfy : f b y with
    | error e => rfl
    | ok b' =>
      rw [exceptBindOk]
      rcases List.mem_cons.mp hx with h | h
      · subst h
        exact absurd (hf b) (by rw [hfy]; simp only [Bool.not_eq_false]; rfl)
      · exact ih h b'

/-- The duplication-path brightness step fails on a spec the validation
rejects, whatever the action list. -/
theorem dupBrightnessStep_isOk_false (lookup : List (String × String)) (spec : String)
    (e : CmdErr) (h : parseBrightnessSpec spec = .error e) (acts : List HueAction) :
    (dupBrightnessStep lookup acts spec).isOk = false := by
  simp only [dupBrightnessStep, h]
  rfl

/-- The duplication-path edit application fails when any brightness spec is
rejected by validation. -/
theorem dupApplyEdits_isOk_false (lookup : List (String × String)) (acts : List HueAction)
    (turn_off turn_on brightness remove_light : List String) (s : String) (e : CmdErr)
    (hs : s ∈ brightness) (he : parseBrightnessSpec s = .error e) :
    (dupApplyEdits lookup acts turn_off turn_on brightness remove_light).isOk = false := by
  simp only [dupApplyEdits]
  cases h1 : List.foldlM (dupOffStep lookup) acts turn_off with
  | error e1 => rfl
  | ok a1 =>
    simp only [exceptBindOk]
    cases h2 : List.foldlM (dupOnStep lookup) a1 turn_on with
    | error e2 => rfl
    | ok a2 =>
      simp only [exceptBindOk]
      cases h3 : List.foldlM (dupBrightnessStep lookup) a2 brightness with
      | error e3 => rfl
      | ok a3 =>
        exfalso
        have := foldlM_isOk_false (dupBrightnessStep lookup) brightness s hs
          (fun b => dupBrightnessStep_isOk_false lookup s e he b) a2
        rw [h3] at this
        exact Bool.noConfusion this

/-- The bulk validation phase fails when any brightness spec is rejected. -/
theorem validateOps_isOk_false (lookup : List (String × String))
    (remove_light turn_off turn_on brightness : List String) (s : String) (e : CmdErr)
    (hs : s ∈ brightness) (he : parseBrightnessSpec s = .error e) :
    (validateOps lookup remove_light turn_off turn_on brightness).isOk = false := by
  have hstep : ∀ (acc : List LightOp),
      ((do
        let (lname, v) ← parseBrightnessSpec s
        let rid ← find_light_rid lookup lname
        return acc ++ [LightOp.brightOp rid v] : Except CmdErr (List LightOp))).isOk
        = false := by
    intro acc
    simp only [he]
    rfl
  simp only [validateOps]
  cases h1 : List.foldlM
      (fun acc n => (find_light_rid lookup n).map (fun rid => acc ++ [LightOp.removeOp rid]))
      [] remove_light with
  | error e1 => rfl
  | ok ops1 =>
    simp only [exceptBindOk]
    cases h2 : List.foldlM
        (fun acc n => (find_light_rid lookup n).map (fun rid => acc ++ [LightOp.offOp rid]))
        ops1 turn_off with
    | error e2 => rfl
    | ok ops2 =>
      simp only [exceptBindOk]
      cases h3 : List.foldlM
          (fun acc n => (find_light_rid lookup n).map (fun rid => acc ++ [LightOp.onOp rid]))
          ops2 turn_on with
      | error e3 => rfl
      | ok ops3 =>
        simp only [exceptBindOk]
        cases h4 : List.foldlM
            (fun acc s => do
              let (lname, v) ← parseBrightnessSpec s
              let rid ← find_light_rid lookup lname
              return acc ++ [LightOp.brightOp rid v])
            ops3 brightness with
        | error e4 => rfl
        | ok ops4 =>
          exfalso
          have := foldlM_isOk_false
            (fun acc s => do
              let (lname, v) ← parseBrightnessSpec s
              let rid ← find_light_rid lookup lname
              return acc ++ [LightOp.brightOp rid v])
            brightness s hs (fun b => hstep b) ops3
          rw [h4] at this
          exact Bool.noConfusion this

/-- C3: whenever the brightness edit list contains a spec whose value fails
validation (non-numeric, or numeric but outside 0–100), the whole operation
fails — on the single-scene duplication path and on the bulk path alike — so
no `create_scene` or `delete_scene` call is ever issued for it. -/
theorem C3_bad_brightness_rejects_all (scenes : List Scene) (lights : List Light)
    (groups : List HueGroup) (source_scene new_name room : String)
    (turn_on turn_off brightness remove_light : List String)
    (zone : Option String) (createOk deleteOk : String → Bool)
    (s : String) (e : CmdErr) (hs : s ∈ brightness)
    (he : parseBrightnessSpec s = .error e)
    (hkind : e = CmdErr.badNumber s ∨ e = CmdErr.badRange s) :
    (duplicate_scene_command scenes lights groups source_scene new_name turn_on turn_off
        brightness remove_light zone).isOk = false
    ∧ (modify_scenes_command scenes lights groups room remove_light turn_on turn_off
        brightness createOk deleteOk).isOk = false := by
  constructor
  · simp only [duplicate_scene_command]
    cases hc : dupFilterCandidates scenes groups zone with
    | error e1 => rfl
    | ok cands =>
      simp only [exceptBindOk]
      cases hr : resolveScene cands source_scene with
      | ambiguous ms => rfl
      | notFound => rfl
      | unique src =>
        simp only [exceptBindOk]
        cases hd : dupApplyEdits (light_reverse_lookup lights) src.actions turn_off turn_on
            brightness remove_light with
        | error e2 => rfl
        | ok na =>
          exfalso
          have := dupApplyEdits_isOk_false (light_reverse_lookup lights) src.actions
            turn_off turn_on brightness remove_light s e hs he
          rw [hd] at this
          exact Bool.noConfusion this
  · simp only [modify_scenes_command]
    cases hg : groups.filter (fun g => substrOf (lowerStr room) (lowerStr g.name)) with
    | nil => rfl
    | cons g t =>
      cases t with
      | cons g2 t2 => rfl
      | nil =>
        simp only [exceptBindOk]
        cases ht : (scenes.filter (fun x => x.group_rid = some g.id)).isEmpty with
        | true => rfl
        | false =>
          cases hv : validateOps (light_reverse_lookup lights) remove_light turn_off
              turn_on brightness with
          | error e3 => rfl
          | ok ops =>
            exfalso
            have := validateOps_isOk_false (light_reverse_lookup lights) remove_light
              turn_off turn_on brightness s e hs he
            rw [hv] at this
            exact Bool.noConfusion this

/-- Witness for C3 at a concrete input: the spec `"Lamp=150%"` is out of
range; a valid turn-off edit listed before it does not save either command
from rejecting everything. -/
theorem C3_witness :
    (duplicate_scene_command [relaxScene] [⟨"L1", "lamp"⟩] [] "Relax" "Copy" []
        ["lamp"] ["Lamp=150%"] [] none).isOk = false
    ∧ (modify_scenes_command [relaxScene] [⟨"L1", "lamp"⟩] [⟨"g1", "Living"⟩] "Living"
        [] [] ["lamp"] ["Lamp=150%"] (fun _ => true) (fun _ => true)).isOk = false :=
  C3_bad_brightness_rejects_all [relaxScene] [⟨"L1", "lamp"⟩] [] "Relax" "Copy" "Living"
    [] ["lamp"] ["Lamp=150%"] [] none (fun _ => true) (fun _ => true)
    "Lamp=150%" (CmdErr.badRange "Lamp=150%") (by decide) (by decide) (Or.inr rfl)
